import Mathlib

/-!
Shallow embedding of the CASA0016 Study Assistant focus/rest controller.

The authoritative sketch is `src/unnamed/part_000` (the "Full Version" with
the red-warning `waitingForUserToLeave` state); `src/unnamed/part_002` carries
an identical copy of that loop plus a second, "Modified Logic" sketch whose
`calculateRecommendedTime` uses different deltas and a clamp floor of 20
minutes (embedded here as `calculateRecommendedTimeV2`).

Modelling conventions:
* `millis()` is modelled as a single `now : Nat` input per loop cycle; all the
  `millis()` calls of one iteration happen within a few microseconds, and all
  elapsed-time computations `millis() - start` are modelled as `Nat`
  truncated subtraction, which agrees with the C++ 32-bit unsigned
  subtraction whenever `start ≤ now` and the run lasts less than the 32-bit
  wrap period (all claims are about such runs).
* `float lux` is modelled as an exact rational: the sketch only ever compares
  `lux` with small integer constants, and IEEE comparison of a float value
  with such a constant is exact, so every float behaves as the rational it
  denotes in these comparisons.
* LED/LCD writes other than the status-strip colour cache (`lastR`, `lastG`,
  `lastB`) and the environment strip on/off state are external display
  effects with no feedback into the logic; the two cached ones are kept as
  state because the claims talk about them.
-/

namespace StudyAssistant

/-- One environment snapshot: the raw sensor values read at the top of
`loop` in `part_000` (`long distance`, `int noiseVal`, `float lux`). -/
structure Env where
  distance : Int
  noise : Int
  lux : ℚ
deriving Repr, DecidableEq

/-- `int PRESENT_DISTANCE = 80;` -/
def PRESENT_DISTANCE : Int := 80

/-- `int TOO_CLOSE_DISTANCE = 20;` -/
def TOO_CLOSE_DISTANCE : Int := 20

/-- `int MIN_LUX = 80;` -/
def MIN_LUX : ℚ := 80

/-- `int MAX_NOISE = 300;` -/
def MAX_NOISE : Int := 300

/-- `bool validDistance = (distance > 5 && distance < 200);` (part_000 l.173) -/
def validDistance (d : Int) : Bool := 5 < d && d < 200

/-- `bool userNear = validDistance && (distance < PRESENT_DISTANCE);` (l.174) -/
def userNear (d : Int) : Bool := validDistance d && d < PRESENT_DISTANCE

/-- `bool userTooClose = validDistance && (distance < TOO_CLOSE_DISTANCE);` (l.175) -/
def userTooClose (d : Int) : Bool := validDistance d && d < TOO_CLOSE_DISTANCE

/-- `calculateRecommendedTime` of part_000 (l.100-120): recommended focus
time in milliseconds.  The result stored into `recommendedFocusTime` is
`recMin * 60000UL` with `recMin` clamped to `[25, 60]`. -/
def calculateRecommendedTime (lux : ℚ) (noise : Int) (distanceCM : Int) : Nat :=
  let baseMin : Int := 45
  let delta : Int :=
    (if lux ≥ 300 then 10 else if lux ≥ 150 then 5 else if lux < 80 then -10 else 0) +
    (if noise < 200 then 10 else if noise < 350 then 5 else if noise > 650 then -10 else 0) +
    (if distanceCM ≥ 40 then 5 else if distanceCM < 20 ∧ distanceCM > 0 then -5 else 0)
  let recMin : Int := baseMin + delta
  let recMin : Int := if recMin < 25 then 25 else recMin
  let recMin : Int := if recMin > 60 then 60 else recMin
  recMin.toNat * 60000

/-- `calculateRecommendedTime` of the second ("Modified Logic") sketch in
part_002 (l.463-487): different deltas and clamp floor of 20 minutes. -/
def calculateRecommendedTimeV2 (lux : ℚ) (noise : Int) (distanceCM : Int) : Nat :=
  let baseMin : Int := 45
  let delta : Int :=
    (if lux ≥ 300 then 5 else if lux ≥ 150 then 0 else if lux < 80 then -10 else 0) +
    (if noise < 200 then 5 else if noise < 350 then 0 else if noise > 650 then -10 else 0) +
    (if distanceCM ≥ 40 then 5 else if distanceCM < 20 ∧ distanceCM > 0 then -5 else 0)
  let recMin : Int := baseMin + delta
  let recMin : Int := if recMin < 20 then 20 else recMin
  let recMin : Int := if recMin > 60 then 60 else recMin
  recMin.toNat * 60000

/-- `calculateRestTime` of part_000 (l.125-138): recommended rest time in
milliseconds, `restMin` clamped to `[5, 25]`. -/
def calculateRestTime (lux : ℚ) (noise : Int) : Nat :=
  let baseMin : Int := 15
  let delta : Int :=
    (if lux < 80 then 5 else 0) +
    (if noise > 650 then 5 else 0) +
    (if lux > 150 ∧ noise < 250 then -5 else 0)
  let restMin : Int := baseMin + delta
  let restMin : Int := if restMin < 5 then 5 else restMin
  let restMin : Int := if restMin > 25 then 25 else restMin
  restMin.toNat * 60000

/-- The globals of part_000 that persist across `loop` iterations. -/
structure St where
  recommendedFocusTime : Nat
  dynamicRestTime : Nat
  focusStartTime : Nat
  totalFocusTime : Nat
  restStartTime : Nat
  absenceStartTime : Nat
  isPresent : Bool
  inRestMode : Bool
  restFinished : Bool
  waitingForUserToLeave : Bool
  lastR : Int
  lastG : Int
  lastB : Int
  envLightOn : Bool
  lastLcdUpdate : Nat
  lcdPage : Nat
deriving Repr, DecidableEq

/-- `safeSetStatusColor` (part_000 l.60-68): writes the strip and updates the
`lastR/lastG/lastB` cache unless the colour is unchanged. -/
def safeSetStatusColor (s : St) (r g b : Int) : St :=
  if r = s.lastR ∧ g = s.lastG ∧ b = s.lastB then s
  else { s with lastR := r, lastG := g, lastB := b }

/-- `setEnvironmentLight` (part_000 l.89-95): drives the environment strip
fully on or off. -/
def setEnvironmentLight (s : St) (state : Bool) : St :=
  { s with envLightOn := state }

/-- Top of `loop` (part_000 l.177-178): both recommendations are recomputed
from the fresh snapshot on every cycle, before any state-machine branch. -/
def updateRecommendations (e : Env) (s : St) : St :=
  { s with
    recommendedFocusTime :=
      calculateRecommendedTime e.lux e.noise
        (if validDistance e.distance then e.distance else 999),
    dynamicRestTime := calculateRestTime e.lux e.noise }

/-- Red-warning branch `if (waitingForUserToLeave) { ... return; }`
(part_000 l.183-206). -/
def warnBranch (now : Nat) (e : Env) (s : St) : St :=
  let s := safeSetStatusColor s 40 0 0
  let s := if userNear e.distance then { s with absenceStartTime := now } else s
  if ¬(userNear e.distance = true) ∧ 2000 ≤ now - s.absenceStartTime then
    { s with waitingForUserToLeave := false, inRestMode := true, restStartTime := now }
  else s

/-- Rest branch `if (inRestMode) { ... return; }` (part_000 l.211-238). -/
def restBranch (now : Nat) (e : Env) (s : St) : St :=
  let s := safeSetStatusColor s 40 0 0
  let s := setEnvironmentLight s false
  let restElapsed := now - s.restStartTime
  if ¬(userNear e.distance = true) ∧ s.dynamicRestTime ≤ restElapsed then
    safeSetStatusColor { s with inRestMode := false, restFinished := true } 20 20 0
  else s

/-- Presence tracking at the top of normal focus mode (part_000 l.243-252):
a near user starts a segment, a departing user closes it into
`totalFocusTime`. -/
def presenceUpdate (now : Nat) (e : Env) (s : St) : St :=
  let s := if userNear e.distance = true ∧ s.isPresent = false then
      { s with isPresent := true, restFinished := false, focusStartTime := now }
    else s
  if ¬(userNear e.distance = true) ∧ s.isPresent = true then
    { s with totalFocusTime := s.totalFocusTime + (now - s.focusStartTime),
             isPresent := false }
  else s

/-- Post-rest block (part_000 l.272-280): while `restFinished`, hold the
yellow colour and environment light off until the user returns. -/
def postRestUpdate (now : Nat) (e : Env) (s : St) : St :=
  if s.restFinished = true then
    let s2 := safeSetStatusColor (setEnvironmentLight s false) 20 20 0
    if userNear e.distance = true then
      { s2 with restFinished := false, focusStartTime := now }
    else s2
  else s

/-- Status LED decision during focus (part_000 l.285-307); only runs while
`isPresent`. -/
def ledDecision (e : Env) (s : St) : St :=
  if s.isPresent = true then
    if validDistance e.distance = false then
      (if MAX_NOISE < e.noise then safeSetStatusColor s 40 40 0
       else safeSetStatusColor s 0 0 0)
    else if userTooClose e.distance = true then safeSetStatusColor s 0 0 40
    else if MAX_NOISE < e.noise then safeSetStatusColor s 40 40 0
    else safeSetStatusColor s 0 40 0
  else s

/-- LCD page rotation every 2 s (part_000 l.314-318). -/
def lcdUpdate (now : Nat) (s : St) : St :=
  if 2000 < now - s.lastLcdUpdate then
    { s with lastLcdUpdate := now, lcdPage := (s.lcdPage + 1) % 2 }
  else s

/-- Normal focus-mode tail of `loop` (part_000 l.243-340): presence update,
warning entry (l.258-267, with its early `return`), post-rest return
handling, status LED decision, environment light, LCD page rotation. -/
def focusBranch (now : Nat) (e : Env) (s : St) : St :=
  let s := presenceUpdate now e s
  let currentFocus := if s.isPresent then now - s.focusStartTime else 0
  if s.inRestMode = false ∧ s.isPresent = true ∧ s.recommendedFocusTime ≤ currentFocus then
    safeSetStatusColor
      { s with totalFocusTime := s.totalFocusTime + currentFocus,
               isPresent := false,
               waitingForUserToLeave := true,
               absenceStartTime := now } 40 0 0
  else
    lcdUpdate now
      (setEnvironmentLight (ledDecision e (postRestUpdate now e s))
        (decide (e.lux < MIN_LUX)))

/-- One full `loop` iteration of part_000, as a function of the logical time
`now`, the sensor snapshot `e` and the persistent state `s`. -/
def loopStep (now : Nat) (e : Env) (s : St) : St :=
  let s := updateRecommendations e s
  if s.waitingForUserToLeave then warnBranch now e s
  else if s.inRestMode then restBranch now e s
  else focusBranch now e s

/-- Run the loop over a list of `(now, snapshot)` cycles. -/
def loopRun (s : St) : List (Nat × Env) → St
  | [] => s
  | (t, e) :: rest => loopRun (loopStep t e s) rest

/-- Does the machine ever enter rest mode during the given cycles? -/
def reachesRest (s : St) : List (Nat × Env) → Bool
  | [] => false
  | (t, e) :: rest =>
    let s' := loopStep t e s
    if s'.inRestMode then true else reachesRest s' rest

/-- Reference debounce semantics, following the spec's words: starting from
the last reset timestamp `a`, a `userNear` observation at time `t` resets
the window to `t`; an absent observation fires once its time is ≥ 2000 ms
after the last reset.  Inputs are `(now, userNear)` pairs. -/
def debounceSpec (a : Nat) : List (Nat × Bool) → Bool
  | [] => false
  | (t, near) :: rest =>
    if near then debounceSpec t rest
    else if 2000 ≤ t - a then true else debounceSpec a rest

/-! ## Frame lemmas

`safeSetStatusColor` only ever touches the colour cache; every other field
passes through, in both its branches.  These let later proofs reason about
the state machine without case-splitting on the colour-cache test. -/

@[simp] lemma safeSet_recommendedFocusTime (s : St) (r g b : Int) :
    (safeSetStatusColor s r g b).recommendedFocusTime = s.recommendedFocusTime := by
  unfold safeSetStatusColor; split <;> rfl

@[simp] lemma safeSet_dynamicRestTime (s : St) (r g b : Int) :
    (safeSetStatusColor s r g b).dynamicRestTime = s.dynamicRestTime := by
  unfold safeSetStatusColor; split <;> rfl

@[simp] lemma safeSet_focusStartTime (s : St) (r g b : Int) :
    (safeSetStatusColor s r g b).focusStartTime = s.focusStartTime := by
  unfold safeSetStatusColor; split <;> rfl

@[simp] lemma safeSet_totalFocusTime (s : St) (r g b : Int) :
    (safeSetStatusColor s r g b).totalFocusTime = s.totalFocusTime := by
  unfold safeSetStatusColor; split <;> rfl

@[simp] lemma safeSet_restStartTime (s : St) (r g b : Int) :
    (safeSetStatusColor s r g b).restStartTime = s.restStartTime := by
  unfold safeSetStatusColor; split <;> rfl

@[simp] lemma safeSet_absenceStartTime (s : St) (r g b : Int) :
    (safeSetStatusColor s r g b).absenceStartTime = s.absenceStartTime := by
  unfold safeSetStatusColor; split <;> rfl

@[simp] lemma safeSet_isPresent (s : St) (r g b : Int) :
    (safeSetStatusColor s r g b).isPresent = s.isPresent := by
  unfold safeSetStatusColor; split <;> rfl

@[simp] lemma safeSet_inRestMode (s : St) (r g b : Int) :
    (safeSetStatusColor s r g b).inRestMode = s.inRestMode := by
  unfold safeSetStatusColor; split <;> rfl

@[simp] lemma safeSet_restFinished (s : St) (r g b : Int) :
    (safeSetStatusColor s r g b).restFinished = s.restFinished := by
  unfold safeSetStatusColor; split <;> rfl

@[simp] lemma safeSet_waitingForUserToLeave (s : St) (r g b : Int) :
    (safeSetStatusColor s r g b).waitingForUserToLeave = s.waitingForUserToLeave := by
  unfold safeSetStatusColor; split <;> rfl

@[simp] lemma safeSet_envLightOn (s : St) (r g b : Int) :
    (safeSetStatusColor s r g b).envLightOn = s.envLightOn := by
  unfold safeSetStatusColor; split <;> rfl

@[simp] lemma safeSet_lastLcdUpdate (s : St) (r g b : Int) :
    (safeSetStatusColor s r g b).lastLcdUpdate = s.lastLcdUpdate := by
  unfold safeSetStatusColor; split <;> rfl

@[simp] lemma safeSet_lcdPage (s : St) (r g b : Int) :
    (safeSetStatusColor s r g b).lcdPage = s.lcdPage := by
  unfold safeSetStatusColor; split <;> rfl

/-! ## Frame lemmas for the loop sub-blocks -/

@[simp] lemma setEnv_recommendedFocusTime (s : St) (b : Bool) :
    (setEnvironmentLight s b).recommendedFocusTime = s.recommendedFocusTime := rfl

@[simp] lemma setEnv_dynamicRestTime (s : St) (b : Bool) :
    (setEnvironmentLight s b).dynamicRestTime = s.dynamicRestTime := rfl

@[simp] lemma setEnv_focusStartTime (s : St) (b : Bool) :
    (setEnvironmentLight s b).focusStartTime = s.focusStartTime := rfl

@[simp] lemma setEnv_totalFocusTime (s : St) (b : Bool) :
    (setEnvironmentLight s b).totalFocusTime = s.totalFocusTime := rfl

@[simp] lemma setEnv_restStartTime (s : St) (b : Bool) :
    (setEnvironmentLight s b).restStartTime = s.restStartTime := rfl

@[simp] lemma setEnv_absenceStartTime (s : St) (b : Bool) :
    (setEnvironmentLight s b).absenceStartTime = s.absenceStartTime := rfl

@[simp] lemma setEnv_isPresent (s : St) (b : Bool) :
    (setEnvironmentLight s b).isPresent = s.isPresent := rfl

@[simp] lemma setEnv_inRestMode (s : St) (b : Bool) :
    (setEnvironmentLight s b).inRestMode = s.inRestMode := rfl

@[simp] lemma setEnv_restFinished (s : St) (b : Bool) :
    (setEnvironmentLight s b).restFinished = s.restFinished := rfl

@[simp] lemma setEnv_waitingForUserToLeave (s : St) (b : Bool) :
    (setEnvironmentLight s b).waitingForUserToLeave = s.waitingForUserToLeave := rfl

@[simp] lemma setEnv_lastR (s : St) (b : Bool) :
    (setEnvironmentLight s b).lastR = s.lastR := rfl

@[simp] lemma setEnv_lastG (s : St) (b : Bool) :
    (setEnvironmentLight s b).lastG = s.lastG := rfl

@[simp] lemma setEnv_lastB (s : St) (b : Bool) :
    (setEnvironmentLight s b).lastB = s.lastB := rfl

@[simp] lemma setEnv_lastLcdUpdate (s : St) (b : Bool) :
    (setEnvironmentLight s b).lastLcdUpdate = s.lastLcdUpdate := rfl

@[simp] lemma setEnv_lcdPage (s : St) (b : Bool) :
    (setEnvironmentLight s b).lcdPage = s.lcdPage := rfl

@[simp] lemma setEnv_envLightOn (s : St) (b : Bool) :
    (setEnvironmentLight s b).envLightOn = b := rfl

@[simp] lemma updateRec_focusStartTime (e : Env) (s : St) :
    (updateRecommendations e s).focusStartTime = s.focusStartTime := rfl

@[simp] lemma updateRec_totalFocusTime (e : Env) (s : St) :
    (updateRecommendations e s).totalFocusTime = s.totalFocusTime := rfl

@[simp] lemma updateRec_restStartTime (e : Env) (s : St) :
    (updateRecommendations e s).restStartTime = s.restStartTime := rfl

@[simp] lemma updateRec_absenceStartTime (e : Env) (s : St) :
    (updateRecommendations e s).absenceStartTime = s.absenceStartTime := rfl

@[simp] lemma updateRec_isPresent (e : Env) (s : St) :
    (updateRecommendations e s).isPresent = s.isPresent := rfl

@[simp] lemma updateRec_inRestMode (e : Env) (s : St) :
    (updateRecommendations e s).inRestMode = s.inRestMode := rfl

@[simp] lemma updateRec_restFinished (e : Env) (s : St) :
    (updateRecommendations e s).restFinished = s.restFinished := rfl

@[simp] lemma updateRec_waitingForUserToLeave (e : Env) (s : St) :
    (updateRecommendations e s).waitingForUserToLeave = s.waitingForUserToLeave := rfl

@[simp] lemma updateRec_lastR (e : Env) (s : St) :
    (updateRecommendations e s).lastR = s.lastR := rfl

@[simp] lemma updateRec_lastG (e : Env) (s : St) :
    (updateRecommendations e s).lastG = s.lastG := rfl

@[simp] lemma updateRec_lastB (e : Env) (s : St) :
    (updateRecommendations e s).lastB = s.lastB := rfl

@[simp] lemma updateRec_envLightOn (e : Env) (s : St) :
    (updateRecommendations e s).envLightOn = s.envLightOn := rfl

@[simp] lemma updateRec_lastLcdUpdate (e : Env) (s : St) :
    (updateRecommendations e s).lastLcdUpdate = s.lastLcdUpdate := rfl

@[simp] lemma updateRec_lcdPage (e : Env) (s : St) :
    (updateRecommendations e s).lcdPage = s.lcdPage := rfl

@[simp] lemma updateRec_recommendedFocusTime (e : Env) (s : St) :
    (updateRecommendations e s).recommendedFocusTime =
      calculateRecommendedTime e.lux e.noise
        (if validDistance e.distance then e.distance else 999) := rfl

@[simp] lemma updateRec_dynamicRestTime (e : Env) (s : St) :
    (updateRecommendations e s).dynamicRestTime = calculateRestTime e.lux e.noise := rfl

@[simp] lemma presenceUpdate_recommendedFocusTime (now : Nat) (e : Env) (s : St) :
    (presenceUpdate now e s).recommendedFocusTime = s.recommendedFocusTime := by
  cases hn : userNear e.distance <;> cases hp : s.isPresent <;>
    simp [presenceUpdate, hn, hp]

@[simp] lemma presenceUpdate_dynamicRestTime (now : Nat) (e : Env) (s : St) :
    (presenceUpdate now e s).dynamicRestTime = s.dynamicRestTime := by
  cases hn : userNear e.distance <;> cases hp : s.isPresent <;>
    simp [presenceUpdate, hn, hp]

@[simp] lemma presenceUpdate_restStartTime (now : Nat) (e : Env) (s : St) :
    (presenceUpdate now e s).restStartTime = s.restStartTime := by
  cases hn : userNear e.distance <;> cases hp : s.isPresent <;>
    simp [presenceUpdate, hn, hp]

@[simp] lemma presenceUpdate_absenceStartTime (now : Nat) (e : Env) (s : St) :
    (presenceUpdate now e s).absenceStartTime = s.absenceStartTime := by
  cases hn : userNear e.distance <;> cases hp : s.isPresent <;>
    simp [presenceUpdate, hn, hp]

@[simp] lemma presenceUpdate_inRestMode (now : Nat) (e : Env) (s : St) :
    (presenceUpdate now e s).inRestMode = s.inRestMode := by
  cases hn : userNear e.distance <;> cases hp : s.isPresent <;>
    simp [presenceUpdate, hn, hp]

@[simp] lemma presenceUpdate_waitingForUserToLeave (now : Nat) (e : Env) (s : St) :
    (presenceUpdate now e s).waitingForUserToLeave = s.waitingForUserToLeave := by
  cases hn : userNear e.distance <;> cases hp : s.isPresent <;>
    simp [presenceUpdate, hn, hp]

@[simp] lemma presenceUpdate_lastR (now : Nat) (e : Env) (s : St) :
    (presenceUpdate now e s).lastR = s.lastR := by
  cases hn : userNear e.distance <;> cases hp : s.isPresent <;>
    simp [presenceUpdate, hn, hp]

@[simp] lemma presenceUpdate_lastG (now : Nat) (e : Env) (s : St) :
    (presenceUpdate now e s).lastG = s.lastG := by
  cases hn : userNear e.distance <;> cases hp : s.isPresent <;>
    simp [presenceUpdate, hn, hp]

@[simp] lemma presenceUpdate_lastB (now : Nat) (e : Env) (s : St) :
    (presenceUpdate now e s).lastB = s.lastB := by
  cases hn : userNear e.distance <;> cases hp : s.isPresent <;>
    simp [presenceUpdate, hn, hp]

@[simp] lemma presenceUpdate_envLightOn (now : Nat) (e : Env) (s : St) :
    (presenceUpdate now e s).envLightOn = s.envLightOn := by
  cases hn : userNear e.distance <;> cases hp : s.isPresent <;>
    simp [presenceUpdate, hn, hp]

@[simp] lemma presenceUpdate_lastLcdUpdate (now : Nat) (e : Env) (s : St) :
    (presenceUpdate now e s).lastLcdUpdate = s.lastLcdUpdate := by
  cases hn : userNear e.distance <;> cases hp : s.isPresent <;>
    simp [presenceUpdate, hn, hp]

@[simp] lemma presenceUpdate_lcdPage (now : Nat) (e : Env) (s : St) :
    (presenceUpdate now e s).lcdPage = s.lcdPage := by
  cases hn : userNear e.distance <;> cases hp : s.isPresent <;>
    simp [presenceUpdate, hn, hp]

@[simp] lemma presenceUpdate_isPresent (now : Nat) (e : Env) (s : St) :
    (presenceUpdate now e s).isPresent = userNear e.distance := by
  cases hn : userNear e.distance <;> cases hp : s.isPresent <;>
    simp [presenceUpdate, hn, hp]

lemma presenceUpdate_focusStartTime (now : Nat) (e : Env) (s : St) :
    (presenceUpdate now e s).focusStartTime =
      if userNear e.distance = true ∧ s.isPresent = false then now
      else s.focusStartTime := by
  cases hn : userNear e.distance <;> cases hp : s.isPresent <;>
    simp [presenceUpdate, hn, hp]

lemma presenceUpdate_restFinished (now : Nat) (e : Env) (s : St) :
    (presenceUpdate now e s).restFinished =
      if userNear e.distance = true ∧ s.isPresent = false then false
      else s.restFinished := by
  cases hn : userNear e.distance <;> cases hp : s.isPresent <;>
    simp [presenceUpdate, hn, hp]

lemma presenceUpdate_totalFocusTime (now : Nat) (e : Env) (s : St) :
    (presenceUpdate now e s).totalFocusTime =
      if userNear e.distance = false ∧ s.isPresent = true then
        s.totalFocusTime + (now - s.focusStartTime)
      else s.totalFocusTime := by
  cases hn : userNear e.distance <;> cases hp : s.isPresent <;>
    simp [presenceUpdate, hn, hp]

@[simp] lemma postRestUpdate_recommendedFocusTime (now : Nat) (e : Env) (s : St) :
    (postRestUpdate now e s).recommendedFocusTime = s.recommendedFocusTime := by
  cases hf : s.restFinished <;> cases hn : userNear e.distance <;>
    simp [postRestUpdate, hf, hn]

@[simp] lemma postRestUpdate_dynamicRestTime (now : Nat) (e : Env) (s : St) :
    (postRestUpdate now e s).dynamicRestTime = s.dynamicRestTime := by
  cases hf : s.restFinished <;> cases hn : userNear e.distance <;>
    simp [postRestUpdate, hf, hn]

@[simp] lemma postRestUpdate_totalFocusTime (now : Nat) (e : Env) (s : St) :
    (postRestUpdate now e s).totalFocusTime = s.totalFocusTime := by
  cases hf : s.restFinished <;> cases hn : userNear e.distance <;>
    simp [postRestUpdate, hf, hn]

@[simp] lemma postRestUpdate_restStartTime (now : Nat) (e : Env) (s : St) :
    (postRestUpdate now e s).restStartTime = s.restStartTime := by
  cases hf : s.restFinished <;> cases hn : userNear e.distance <;>
    simp [postRestUpdate, hf, hn]

@[simp] lemma postRestUpdate_absenceStartTime (now : Nat) (e : Env) (s : St) :
    (postRestUpdate now e s).absenceStartTime = s.absenceStartTime := by
  cases hf : s.restFinished <;> cases hn : userNear e.distance <;>
    simp [postRestUpdate, hf, hn]

@[simp] lemma postRestUpdate_isPresent (now : Nat) (e : Env) (s : St) :
    (postRestUpdate now e s).isPresent = s.isPresent := by
  cases hf : s.restFinished <;> cases hn : userNear e.distance <;>
    simp [postRestUpdate, hf, hn]

@[simp] lemma postRestUpdate_inRestMode (now : Nat) (e : Env) (s : St) :
    (postRestUpdate now e s).inRestMode = s.inRestMode := by
  cases hf : s.restFinished <;> cases hn : userNear e.distance <;>
    simp [postRestUpdate, hf, hn]

@[simp] lemma postRestUpdate_waitingForUserToLeave (now : Nat) (e : Env) (s : St) :
    (postRestUpdate now e s).waitingForUserToLeave = s.waitingForUserToLeave := by
  cases hf : s.restFinished <;> cases hn : userNear e.distance <;>
    simp [postRestUpdate, hf, hn]

@[simp] lemma postRestUpdate_lastLcdUpdate (now : Nat) (e : Env) (s : St) :
    (postRestUpdate now e s).lastLcdUpdate = s.lastLcdUpdate := by
  cases hf : s.restFinished <;> cases hn : userNear e.distance <;>
    simp [postRestUpdate, hf, hn]

@[simp] lemma postRestUpdate_lcdPage (now : Nat) (e : Env) (s : St) :
    (postRestUpdate now e s).lcdPage = s.lcdPage := by
  cases hf : s.restFinished <;> cases hn : userNear e.distance <;>
    simp [postRestUpdate, hf, hn]

lemma postRestUpdate_of_not_finished (now : Nat) (e : Env) (s : St)
    (hf : s.restFinished = false) : postRestUpdate now e s = s := by
  simp [postRestUpdate, hf]

@[simp] lemma ledDecision_recommendedFocusTime (e : Env) (s : St) :
    (ledDecision e s).recommendedFocusTime = s.recommendedFocusTime := by
  unfold ledDecision; split_ifs <;> simp

@[simp] lemma ledDecision_dynamicRestTime (e : Env) (s : St) :
    (ledDecision e s).dynamicRestTime = s.dynamicRestTime := by
  unfold ledDecision; split_ifs <;> simp

@[simp] lemma ledDecision_focusStartTime (e : Env) (s : St) :
    (ledDecision e s).focusStartTime = s.focusStartTime := by
  unfold ledDecision; split_ifs <;> simp

@[simp] lemma ledDecision_totalFocusTime (e : Env) (s : St) :
    (ledDecision e s).totalFocusTime = s.totalFocusTime := by
  unfold ledDecision; split_ifs <;> simp

@[simp] lemma ledDecision_restStartTime (e : Env) (s : St) :
    (ledDecision e s).restStartTime = s.restStartTime := by
  unfold ledDecision; split_ifs <;> simp

@[simp] lemma ledDecision_absenceStartTime (e : Env) (s : St) :
    (ledDecision e s).absenceStartTime = s.absenceStartTime := by
  unfold ledDecision; split_ifs <;> simp

@[simp] lemma ledDecision_isPresent (e : Env) (s : St) :
    (ledDecision e s).isPresent = s.isPresent := by
  unfold ledDecision; split_ifs <;> simp

@[simp] lemma ledDecision_inRestMode (e : Env) (s : St) :
    (ledDecision e s).inRestMode = s.inRestMode := by
  unfold ledDecision; split_ifs <;> simp

@[simp] lemma ledDecision_restFinished (e : Env) (s : St) :
    (ledDecision e s).restFinished = s.restFinished := by
  unfold ledDecision; split_ifs <;> simp

@[simp] lemma ledDecision_waitingForUserToLeave (e : Env) (s : St) :
    (ledDecision e s).waitingForUserToLeave = s.waitingForUserToLeave := by
  unfold ledDecision; split_ifs <;> simp

@[simp] lemma ledDecision_envLightOn (e : Env) (s : St) :
    (ledDecision e s).envLightOn = s.envLightOn := by
  unfold ledDecision; split_ifs <;> simp

@[simp] lemma ledDecision_lastLcdUpdate (e : Env) (s : St) :
    (ledDecision e s).lastLcdUpdate = s.lastLcdUpdate := by
  unfold ledDecision; split_ifs <;> simp

@[simp] lemma ledDecision_lcdPage (e : Env) (s : St) :
    (ledDecision e s).lcdPage = s.lcdPage := by
  unfold ledDecision; split_ifs <;> simp

lemma ledDecision_of_not_present (e : Env) (s : St)
    (hp : s.isPresent = false) : ledDecision e s = s := by
  simp [ledDecision, hp]

@[simp] lemma lcdUpdate_recommendedFocusTime (now : Nat) (s : St) :
    (lcdUpdate now s).recommendedFocusTime = s.recommendedFocusTime := by
  unfold lcdUpdate; split_ifs <;> rfl

@[simp] lemma lcdUpdate_dynamicRestTime (now : Nat) (s : St) :
    (lcdUpdate now s).dynamicRestTime = s.dynamicRestTime := by
  unfold lcdUpdate; split_ifs <;> rfl

@[simp] lemma lcdUpdate_focusStartTime (now : Nat) (s : St) :
    (lcdUpdate now s).focusStartTime = s.focusStartTime := by
  unfold lcdUpdate; split_ifs <;> rfl

@[simp] lemma lcdUpdate_totalFocusTime (now : Nat) (s : St) :
    (lcdUpdate now s).totalFocusTime = s.totalFocusTime := by
  unfold lcdUpdate; split_ifs <;> rfl

@[simp] lemma lcdUpdate_restStartTime (now : Nat) (s : St) :
    (lcdUpdate now s).restStartTime = s.restStartTime := by
  unfold lcdUpdate; split_ifs <;> rfl

@[simp] lemma lcdUpdate_absenceStartTime (now : Nat) (s : St) :
    (lcdUpdate now s).absenceStartTime = s.absenceStartTime := by
  unfold lcdUpdate; split_ifs <;> rfl

@[simp] lemma lcdUpdate_isPresent (now : Nat) (s : St) :
    (lcdUpdate now s).isPresent = s.isPresent := by
  unfold lcdUpdate; split_ifs <;> rfl

@[simp] lemma lcdUpdate_inRestMode (now : Nat) (s : St) :
    (lcdUpdate now s).inRestMode = s.inRestMode := by
  unfold lcdUpdate; split_ifs <;> rfl

@[simp] lemma lcdUpdate_restFinished (now : Nat) (s : St) :
    (lcdUpdate now s).restFinished = s.restFinished := by
  unfold lcdUpdate; split_ifs <;> rfl

@[simp] lemma lcdUpdate_waitingForUserToLeave (now : Nat) (s : St) :
    (lcdUpdate now s).waitingForUserToLeave = s.waitingForUserToLeave := by
  unfold lcdUpdate; split_ifs <;> rfl

@[simp] lemma lcdUpdate_lastR (now : Nat) (s : St) :
    (lcdUpdate now s).lastR = s.lastR := by
  unfold lcdUpdate; split_ifs <;> rfl

@[simp] lemma lcdUpdate_lastG (now : Nat) (s : St) :
    (lcdUpdate now s).lastG = s.lastG := by
  unfold lcdUpdate; split_ifs <;> rfl

@[simp] lemma lcdUpdate_lastB (now : Nat) (s : St) :
    (lcdUpdate now s).lastB = s.lastB := by
  unfold lcdUpdate; split_ifs <;> rfl

@[simp] lemma lcdUpdate_envLightOn (now : Nat) (s : St) :
    (lcdUpdate now s).envLightOn = s.envLightOn := by
  unfold lcdUpdate; split_ifs <;> rfl


set_option maxHeartbeats 1000000 in
/-- The recommendation of part_000 is always between 25 and 60 minutes. -/
lemma calculateRecommendedTime_bounds (lux : ℚ) (noise : Int) (d : Int) :
    25 * 60000 ≤ calculateRecommendedTime lux noise d ∧
    calculateRecommendedTime lux noise d ≤ 60 * 60000 := by
  unfold calculateRecommendedTime
  dsimp only
  split_ifs <;> omega

set_option maxHeartbeats 1000000 in
/-- The recommendation of the modified sketch is always between 20 and 60
minutes. -/
lemma calculateRecommendedTimeV2_bounds (lux : ℚ) (noise : Int) (d : Int) :
    20 * 60000 ≤ calculateRecommendedTimeV2 lux noise d ∧
    calculateRecommendedTimeV2 lux noise d ≤ 60 * 60000 := by
  unfold calculateRecommendedTimeV2
  dsimp only
  split_ifs <;> omega

/-! ## Behaviour of the red-warning (`waitingForUserToLeave`) branch -/

/-- In the warning state, seeing the user resets the absence timer and stays
in the warning state. -/
lemma loopStep_waiting_near (t : Nat) (e : Env) (s : St)
    (hw : s.waitingForUserToLeave = true) (hn : userNear e.distance = true) :
    (loopStep t e s).waitingForUserToLeave = true ∧
    (loopStep t e s).inRestMode = s.inRestMode ∧
    (loopStep t e s).absenceStartTime = t := by
  simp [loopStep, updateRecommendations, warnBranch, hw, hn]

/-- In the warning state, an absence shorter than the 2000 ms window keeps
waiting and leaves the absence timer alone. -/
lemma loopStep_waiting_far_short (t : Nat) (e : Env) (s : St)
    (hw : s.waitingForUserToLeave = true) (hn : userNear e.distance = false)
    (hshort : t - s.absenceStartTime < 2000) :
    (loopStep t e s).waitingForUserToLeave = true ∧
    (loopStep t e s).inRestMode = s.inRestMode ∧
    (loopStep t e s).absenceStartTime = s.absenceStartTime := by
  have h : ¬ 2000 ≤ t - s.absenceStartTime := by omega
  simp [loopStep, updateRecommendations, warnBranch, hw, hn, h]

/-- In the warning state, a full 2000 ms of observed absence enters rest
mode and stamps the rest start time. -/
lemma loopStep_waiting_far_long (t : Nat) (e : Env) (s : St)
    (hw : s.waitingForUserToLeave = true) (hn : userNear e.distance = false)
    (hlong : 2000 ≤ t - s.absenceStartTime) :
    (loopStep t e s).waitingForUserToLeave = false ∧
    (loopStep t e s).inRestMode = true ∧
    (loopStep t e s).restStartTime = t := by
  simp [loopStep, updateRecommendations, warnBranch, hw, hn, hlong]

/-- The machine in the warning state reaches rest mode on exactly the traces
the reference debounce semantics accepts. -/
lemma reachesRest_eq_debounceSpec :
    ∀ (L : List (Nat × Env)) (s : St),
      s.waitingForUserToLeave = true → s.inRestMode = false →
      reachesRest s L =
        debounceSpec s.absenceStartTime (L.map fun p => (p.1, userNear p.2.distance))
  | [], _, _, _ => rfl
  | (t, e) :: rest, s, hw, hr => by
    rw [List.map_cons]
    cases hn : userNear e.distance with
    | true =>
      obtain ⟨h1, h2, h3⟩ := loopStep_waiting_near t e s hw hn
      have h2' : (loopStep t e s).inRestMode = false := h2.trans hr
      rw [reachesRest, debounceSpec]
      simp [hn, h2', h3, reachesRest_eq_debounceSpec rest _ h1 h2']
    | false =>
      by_cases hlong : 2000 ≤ t - s.absenceStartTime
      · obtain ⟨h1, h2, _⟩ := loopStep_waiting_far_long t e s hw hn hlong
        rw [reachesRest, debounceSpec]
        simp [hn, h2, hlong]
      · obtain ⟨h1, h2, h3⟩ :=
          loopStep_waiting_far_short t e s hw hn (by omega)
        have h2' : (loopStep t e s).inRestMode = false := h2.trans hr
        rw [reachesRest, debounceSpec]
        simp [hn, h2', h3, hlong, reachesRest_eq_debounceSpec rest _ h1 h2']

/-! ## Behaviour of the normal focus branch -/

lemma focusBranch_far (now : Nat) (e : Env) (s : St)
    (hn : userNear e.distance = false) (hf : s.restFinished = false) :
    (focusBranch now e s).isPresent = false ∧
    (focusBranch now e s).lastR = s.lastR ∧
    (focusBranch now e s).lastG = s.lastG ∧
    (focusBranch now e s).lastB = s.lastB := by
  have hP : (presenceUpdate now e s).isPresent = false := by
    rw [presenceUpdate_isPresent, hn]
  have hPf : (presenceUpdate now e s).restFinished = false := by
    rw [presenceUpdate_restFinished]; simp [hn, hf]
  simp [focusBranch, hP, hn, postRestUpdate_of_not_finished _ _ _ hPf,
    ledDecision_of_not_present _ _ hP]

lemma focusBranch_totalFocus (now : Nat) (e : Env) (s : St)
    (hr : s.inRestMode = false) :
    (focusBranch now e s).totalFocusTime = s.totalFocusTime +
      (if s.isPresent = true ∧
          (userNear e.distance = false ∨ s.recommendedFocusTime ≤ now - s.focusStartTime)
        then now - s.focusStartTime else 0) := by
  cases hp : s.isPresent <;> cases hn : userNear e.distance
  · simp [focusBranch, hp, hn, presenceUpdate_totalFocusTime,
      presenceUpdate_focusStartTime]
  · by_cases hl : s.recommendedFocusTime = 0
    · simp [focusBranch, hp, hn, hr, hl, presenceUpdate_totalFocusTime,
        presenceUpdate_focusStartTime]
    · simp [focusBranch, hp, hn, hr, hl, presenceUpdate_totalFocusTime,
        presenceUpdate_focusStartTime]
  · simp [focusBranch, hp, hn, presenceUpdate_totalFocusTime,
      presenceUpdate_focusStartTime]
  · by_cases hl : s.recommendedFocusTime ≤ now - s.focusStartTime
    · simp [focusBranch, hp, hn, hr, hl, presenceUpdate_totalFocusTime,
        presenceUpdate_focusStartTime]
    · simp [focusBranch, hp, hn, hr, hl, presenceUpdate_totalFocusTime,
        presenceUpdate_focusStartTime]

lemma focusBranch_envLight (now : Nat) (e : Env) (s : St)
    (hr : s.inRestMode = false) (hpos : 0 < s.recommendedFocusTime) :
    (focusBranch now e s).envLightOn =
      if userNear e.distance = true ∧ s.isPresent = true ∧
          s.recommendedFocusTime ≤ now - s.focusStartTime
        then s.envLightOn else decide (e.lux < MIN_LUX) := by
  cases hp : s.isPresent <;> cases hn : userNear e.distance
  · simp [focusBranch, hp, hn, presenceUpdate_focusStartTime]
  · have hl : ¬ s.recommendedFocusTime = 0 := by omega
    simp [focusBranch, hp, hn, hr, hl, presenceUpdate_focusStartTime]
  · simp [focusBranch, hp, hn, presenceUpdate_focusStartTime]
  · by_cases hl : s.recommendedFocusTime ≤ now - s.focusStartTime
    · simp [focusBranch, hp, hn, hr, hl, presenceUpdate_focusStartTime]
    · simp [focusBranch, hp, hn, hr, hl, presenceUpdate_focusStartTime]

lemma focusBranch_warn_iff (now : Nat) (e : Env) (s : St)
    (hw : s.waitingForUserToLeave = false) (hr : s.inRestMode = false)
    (hp : s.isPresent = true) (hn : userNear e.distance = true) :
    (focusBranch now e s).waitingForUserToLeave = true ↔
      s.recommendedFocusTime ≤ now - s.focusStartTime := by
  by_cases hl : s.recommendedFocusTime ≤ now - s.focusStartTime
  · simp [focusBranch, hp, hn, hr, hl, presenceUpdate_focusStartTime]
  · simp [focusBranch, hp, hn, hr, hw, hl, presenceUpdate_focusStartTime]

/-- The warning branch never touches the focus accumulator. -/
lemma warnBranch_totalFocusTime (now : Nat) (e : Env) (s : St) :
    (warnBranch now e s).totalFocusTime = s.totalFocusTime := by
  simp only [warnBranch]; split_ifs <;> simp

/-- The warning branch never touches the stored focus recommendation. -/
lemma warnBranch_recommendedFocusTime (now : Nat) (e : Env) (s : St) :
    (warnBranch now e s).recommendedFocusTime = s.recommendedFocusTime := by
  simp only [warnBranch]; split_ifs <;> simp

/-- The warning branch never touches the stored rest recommendation. -/
lemma warnBranch_dynamicRestTime (now : Nat) (e : Env) (s : St) :
    (warnBranch now e s).dynamicRestTime = s.dynamicRestTime := by
  simp only [warnBranch]; split_ifs <;> simp

/-- The warning branch performs no environment-light write. -/
lemma warnBranch_envLightOn (now : Nat) (e : Env) (s : St) :
    (warnBranch now e s).envLightOn = s.envLightOn := by
  simp only [warnBranch]; split_ifs <;> simp

/-- The rest branch never touches the focus accumulator. -/
lemma restBranch_totalFocusTime (now : Nat) (e : Env) (s : St) :
    (restBranch now e s).totalFocusTime = s.totalFocusTime := by
  simp only [restBranch]; split_ifs <;> simp

/-- The rest branch never touches the stored focus recommendation. -/
lemma restBranch_recommendedFocusTime (now : Nat) (e : Env) (s : St) :
    (restBranch now e s).recommendedFocusTime = s.recommendedFocusTime := by
  simp only [restBranch]; split_ifs <;> simp

/-- The rest branch never touches the stored rest recommendation. -/
lemma restBranch_dynamicRestTime (now : Nat) (e : Env) (s : St) :
    (restBranch now e s).dynamicRestTime = s.dynamicRestTime := by
  simp only [restBranch]; split_ifs <;> simp

/-- The rest branch always drives the environment light off. -/
lemma restBranch_envLightOn (now : Nat) (e : Env) (s : St) :
    (restBranch now e s).envLightOn = false := by
  simp only [restBranch]; split_ifs <;> simp

/-- The focus branch never touches the stored focus recommendation. -/
lemma focusBranch_recommendedFocusTime (now : Nat) (e : Env) (s : St) :
    (focusBranch now e s).recommendedFocusTime = s.recommendedFocusTime := by
  simp only [focusBranch]; split_ifs <;> simp

/-- The focus branch never touches the stored rest recommendation. -/
lemma focusBranch_dynamicRestTime (now : Nat) (e : Env) (s : St) :
    (focusBranch now e s).dynamicRestTime = s.dynamicRestTime := by
  simp only [focusBranch]; split_ifs <;> simp

/-- An absent observation always leaves the focus branch with
`isPresent = false`, whatever the rest-finished flag. -/
lemma focusBranch_isPresent_far (now : Nat) (e : Env) (s : St)
    (hn : userNear e.distance = false) :
    (focusBranch now e s).isPresent = false := by
  simp [focusBranch, hn]

/-- Outside the warning and rest states, one `loop` iteration is the focus
branch applied after the top-of-loop recommendation update. -/
lemma loopStep_eq_focusBranch (now : Nat) (e : Env) (s : St)
    (hw : s.waitingForUserToLeave = false) (hr : s.inRestMode = false) :
    loopStep now e s = focusBranch now e (updateRecommendations e s) := by
  simp [loopStep, hw, hr]

/-! ## Claim C4 -/

/-- C4: for every snapshot the derived booleans form the implication chain
`userTooClose → userNear → validDistance` (equivalently, an invalid distance
— the 0 timeout sentinel or any reading outside (5, 200) — gives
`userNear = false`), and on such a cycle, outside the warning and rest
states, the machine ends the cycle with `isPresent = false`, so an invalid
reading never starts or continues a focus segment. -/
theorem presence_classification_chain :
    (∀ d : Int,
      (userTooClose d = true → userNear d = true) ∧
      (userNear d = true → validDistance d = true) ∧
      (validDistance d = false → userNear d = false)) ∧
    (∀ (now : Nat) (e : Env) (s : St),
      s.waitingForUserToLeave = false → s.inRestMode = false →
      validDistance e.distance = false →
      (loopStep now e s).isPresent = false) := by
  constructor
  · intro d
    refine ⟨?_, ?_, ?_⟩ <;>
      simp [userTooClose, userNear, validDistance,
        PRESENT_DISTANCE, TOO_CLOSE_DISTANCE] <;>
      omega
  · intro now e s hw hr hv
    have hn : userNear e.distance = false := by simp [userNear, hv]
    rw [loopStep_eq_focusBranch now e s hw hr]
    exact focusBranch_isPresent_far now e _ hn

/-- Witness for C4, at distance 10 cm (valid, near, too close) and at the
timeout sentinel 0 with a machine mid-focus. -/
theorem presence_classification_chain_witness :
    userNear 10 = true ∧ validDistance 10 = true ∧
    (loopStep 1000 { distance := 0, noise := 100, lux := 500 }
      { recommendedFocusTime := 2700000, dynamicRestTime := 900000,
        focusStartTime := 0, totalFocusTime := 0, restStartTime := 0,
        absenceStartTime := 0, isPresent := true, inRestMode := false,
        restFinished := false, waitingForUserToLeave := false,
        lastR := 0, lastG := 40, lastB := 0, envLightOn := false,
        lastLcdUpdate := 0, lcdPage := 0 }).isPresent = false := by
  refine ⟨((presence_classification_chain.1 10).1 (by decide)),
    ((presence_classification_chain.1 10).2.1 (by decide)), ?_⟩
  exact presence_classification_chain.2 1000 _ _ rfl rfl (by decide)

/-! ## Claim C5 -/

/-- Reference recommendation in minutes, written from the words of the spec
and of claim C5: band deltas for lux, noise and distance added to the
45-minute base, clamped between the 25-minute floor and the 60-minute
ceiling. -/
def recommendedMinutesRef (lux : ℚ) (noise : Int) (distance : Int) : Int :=
  let luxDelta : Int :=
    if lux ≥ 300 then 10 else if lux ≥ 150 then 5 else if lux ≥ 80 then 0 else -10
  let noiseDelta : Int :=
    if noise < 200 then 10 else if noise < 350 then 5 else if noise ≤ 650 then 0 else -10
  let distanceDelta : Int :=
    if distance ≥ 40 then 5 else if 0 < distance ∧ distance < 20 then -5 else 0
  min (max (45 + luxDelta + noiseDelta + distanceDelta) 25) 60

/-- The code's nested-else lux bands agree with the reference bands. -/
lemma luxDelta_eq (lux : ℚ) :
    (if lux ≥ 300 then (10 : Int) else if lux ≥ 150 then 5 else if lux < 80 then -10 else 0) =
    (if lux ≥ 300 then 10 else if lux ≥ 150 then 5 else if lux ≥ 80 then 0 else -10) := by
  split_ifs <;> first | rfl | linarith

/-- The code's nested-else noise bands agree with the reference bands. -/
lemma noiseDelta_eq (noise : Int) :
    (if noise < 200 then (10 : Int) else if noise < 350 then 5 else if noise > 650 then -10 else 0) =
    (if noise < 200 then 10 else if noise < 350 then 5 else if noise ≤ 650 then 0 else -10) := by
  split_ifs <;> omega

/-- The code's distance bands agree with the reference bands. -/
lemma distDelta_eq (d : Int) :
    (if d ≥ 40 then (5 : Int) else if d < 20 ∧ d > 0 then -5 else 0) =
    (if d ≥ 40 then 5 else if 0 < d ∧ d < 20 then -5 else 0) := by
  split_ifs <;> first | rfl | omega

/-- The code's floor-then-ceiling clamp agrees with `min`/`max`. -/
lemma clampMinutes_eq (x : Int) :
    (if (if 45 + x < 25 then (25 : Int) else 45 + x) > 60 then (60 : Int)
     else if 45 + x < 25 then 25 else 45 + x) =
    min (max (45 + x) 25) 60 := by
  split_ifs <;> omega

/-- C5: `calculateRecommendedTime` equals the reference definition
`clamp(45 + luxDelta + noiseDelta + distanceDelta, 25, 60)` minutes (in
milliseconds), and in particular for lux=500, noise=100, distance=50 the
unclamped 70-minute sum is clamped to exactly 60 minutes. -/
theorem calculateRecommendedTime_matches_reference :
    (∀ (lux : ℚ) (noise : Int) (d : Int),
      calculateRecommendedTime lux noise d =
        (recommendedMinutesRef lux noise d).toNat * 60000) ∧
    calculateRecommendedTime 500 100 50 = 60 * 60000 := by
  constructor
  · intro lux noise d
    unfold calculateRecommendedTime recommendedMinutesRef
    dsimp only
    rw [luxDelta_eq, noiseDelta_eq, distDelta_eq, clampMinutes_eq]
    omega
  · decide

/-! ## Claim C6 -/

/-- C6: at lux=50, noise=700, distance=15 the unclamped sum is 20 minutes;
the part_000 model (floor 25) returns the 25-minute floor and the modified
part_002 model (floor 20) returns 20 minutes, and each model's output always
lies between its floor and 60 minutes. -/
theorem recommendation_floor_variants :
    calculateRecommendedTime 50 700 15 = 25 * 60000 ∧
    calculateRecommendedTimeV2 50 700 15 = 20 * 60000 ∧
    (∀ (lux : ℚ) (noise : Int) (d : Int),
      25 * 60000 ≤ calculateRecommendedTime lux noise d ∧
      calculateRecommendedTime lux noise d ≤ 60 * 60000) ∧
    (∀ (lux : ℚ) (noise : Int) (d : Int),
      20 * 60000 ≤ calculateRecommendedTimeV2 lux noise d ∧
      calculateRecommendedTimeV2 lux noise d ≤ 60 * 60000) :=
  ⟨by decide, by decide, calculateRecommendedTime_bounds, calculateRecommendedTimeV2_bounds⟩

/-! ## Claim C2 -/

/-- C2: in the warning state (`waitingForUserToLeave`), every cycle observing
`userNear = true` resets `absenceStartTime` to the current time; the machine
moves to rest mode only on a cycle with `userNear = false` whose time is at
least 2000 ms after the last reset; shorter absences leave the state and the
timer untouched, and over any whole input trace the machine reaches rest mode
exactly when the reference debounce semantics fires, so intermittent absences
that never span 2000 ms contiguously keep it in the warning state forever. -/
theorem warning_absence_debounce (s : St)
    (hw : s.waitingForUserToLeave = true) (hr : s.inRestMode = false) :
    (∀ (t : Nat) (e : Env), userNear e.distance = true →
      (loopStep t e s).absenceStartTime = t ∧
      (loopStep t e s).waitingForUserToLeave = true ∧
      (loopStep t e s).inRestMode = false) ∧
    (∀ (t : Nat) (e : Env), userNear e.distance = false →
      t - s.absenceStartTime < 2000 →
      (loopStep t e s).waitingForUserToLeave = true ∧
      (loopStep t e s).inRestMode = false ∧
      (loopStep t e s).absenceStartTime = s.absenceStartTime) ∧
    (∀ (t : Nat) (e : Env), userNear e.distance = false →
      2000 ≤ t - s.absenceStartTime →
      (loopStep t e s).waitingForUserToLeave = false ∧
      (loopStep t e s).inRestMode = true ∧
      (loopStep t e s).restStartTime = t) ∧
    (∀ L : List (Nat × Env),
      reachesRest s L =
        debounceSpec s.absenceStartTime
          (L.map fun p => (p.1, userNear p.2.distance))) := by
  refine ⟨fun t e hn => ?_, fun t e hn hshort => ?_, fun t e hn hlong => ?_,
    fun L => reachesRest_eq_debounceSpec L s hw hr⟩
  · obtain ⟨h1, h2, h3⟩ := loopStep_waiting_near t e s hw hn
    exact ⟨h3, h1, h2.trans hr⟩
  · obtain ⟨h1, h2, h3⟩ := loopStep_waiting_far_short t e s hw hn hshort
    exact ⟨h1, h2.trans hr, h3⟩
  · exact loopStep_waiting_far_long t e s hw hn hlong

/-- Concrete warning-state machine used to witness C2. -/
def c2State : St :=
  { recommendedFocusTime := 2700000, dynamicRestTime := 900000,
    focusStartTime := 0, totalFocusTime := 2700000, restStartTime := 0,
    absenceStartTime := 0, isPresent := false, inRestMode := false,
    restFinished := false, waitingForUserToLeave := true,
    lastR := 40, lastG := 0, lastB := 0, envLightOn := false,
    lastLcdUpdate := 0, lcdPage := 0 }

/-- Snapshot with the user seated 50 cm away. -/
def c2NearEnv : Env := { distance := 50, noise := 100, lux := 500 }

/-- Snapshot with an out-of-range (absent) distance reading. -/
def c2FarEnv : Env := { distance := 999, noise := 100, lux := 500 }

/-- Witness for C2: a near observation at 500 ms resets the timer, a short
absence at 1000 ms keeps waiting, and the absence at 3500 ms (3000 ms after
the reset) enters rest mode; the refinement equation evaluates accordingly. -/
theorem warning_absence_debounce_witness :
    c2State.waitingForUserToLeave = true ∧
    reachesRest c2State [(500, c2NearEnv), (1000, c2FarEnv), (3500, c2FarEnv)] = true := by
  constructor
  · rfl
  · rw [(warning_absence_debounce c2State rfl rfl).2.2.2
      [(500, c2NearEnv), (1000, c2FarEnv), (3500, c2FarEnv)]]
    decide

/-! ## Claim C3 -/

/-- C3: while resting (and not in the warning state), the machine moves to
the rest-finished state on exactly those cycles where the user is away AND
the elapsed rest time has reached the recommended rest duration (with `≥`,
so the boundary tick fires); a user present at the elapsed instant, or an
early return, never ends rest by itself. -/
theorem rest_termination_requires_both (now : Nat) (e : Env) (s : St)
    (hw : s.waitingForUserToLeave = false) (hr : s.inRestMode = true)
    (hf : s.restFinished = false) :
    ((loopStep now e s).inRestMode = false ∧ (loopStep now e s).restFinished = true) ↔
      (userNear e.distance = false ∧
        calculateRestTime e.lux e.noise ≤ now - s.restStartTime) := by
  by_cases hn : userNear e.distance = true
  · simp [loopStep, updateRecommendations, restBranch, setEnvironmentLight, hw, hr, hf, hn]
  · by_cases hl : calculateRestTime e.lux e.noise ≤ now - s.restStartTime
    · simp [loopStep, updateRecommendations, restBranch, setEnvironmentLight, hw, hr, hf, hn, hl]
    · simp [loopStep, updateRecommendations, restBranch, setEnvironmentLight, hw, hr, hf, hn, hl]

/-- Concrete resting machine used to witness C3. -/
def c3State : St :=
  { recommendedFocusTime := 2700000, dynamicRestTime := 900000,
    focusStartTime := 0, totalFocusTime := 2700000, restStartTime := 0,
    absenceStartTime := 0, isPresent := false, inRestMode := true,
    restFinished := false, waitingForUserToLeave := false,
    lastR := 40, lastG := 0, lastB := 0, envLightOn := false,
    lastLcdUpdate := 0, lcdPage := 0 }

/-- Witness snapshot for C3: user away, 15-minute rest recommendation. -/
def c3Env : Env := { distance := 999, noise := 400, lux := 500 }

/-- Witness for C3: with a 15-minute recommendation and the user away, the
cycle at exactly 900000 ms (the boundary tick) finishes the rest. -/
theorem rest_termination_requires_both_witness :
    (loopStep 900000 c3Env c3State).inRestMode = false ∧
    (loopStep 900000 c3Env c3State).restFinished = true := by
  exact (rest_termination_requires_both 900000 c3Env c3State rfl rfl rfl).mpr
    (by constructor
        · decide
        · decide)

/-! ## Claim C7 -/

/-- C7: on a cycle that observes the user absent while the machine is in
none of the warning, resting or rest-finished states, no status-indicator
write happens: the colour cache `lastR`, `lastG`, `lastB` is exactly the
previous cycle's, and the cycle ends with `isPresent = false`. -/
theorem absence_preserves_status_colour (now : Nat) (e : Env) (s : St)
    (hn : userNear e.distance = false)
    (hw : s.waitingForUserToLeave = false) (hr : s.inRestMode = false)
    (hf : s.restFinished = false) :
    (loopStep now e s).lastR = s.lastR ∧
    (loopStep now e s).lastG = s.lastG ∧
    (loopStep now e s).lastB = s.lastB ∧
    (loopStep now e s).isPresent = false := by
  rw [loopStep_eq_focusBranch now e s hw hr]
  obtain ⟨h1, h2, h3, h4⟩ :=
    focusBranch_far now e (updateRecommendations e s) hn (by simpa using hf)
  exact ⟨by simpa using h2, by simpa using h3, by simpa using h4, h1⟩

/-- Concrete mid-focus machine used to witness C7. -/
def c7State : St :=
  { recommendedFocusTime := 2700000, dynamicRestTime := 900000,
    focusStartTime := 0, totalFocusTime := 0, restStartTime := 0,
    absenceStartTime := 0, isPresent := true, inRestMode := false,
    restFinished := false, waitingForUserToLeave := false,
    lastR := 0, lastG := 40, lastB := 0, envLightOn := false,
    lastLcdUpdate := 0, lcdPage := 0 }

/-- Witness snapshot for C7: the user has left (out-of-range reading). -/
def c7Env : Env := { distance := 999, noise := 100, lux := 500 }

/-- Witness for C7: the green colour written during focus survives an
absence cycle untouched. -/
theorem absence_preserves_status_colour_witness :
    (loopStep 1000 c7Env c7State).lastR = 0 ∧
    (loopStep 1000 c7Env c7State).lastG = 40 ∧
    (loopStep 1000 c7Env c7State).lastB = 0 ∧
    (loopStep 1000 c7Env c7State).isPresent = false := by
  obtain ⟨h1, h2, h3, h4⟩ :=
    absence_preserves_status_colour 1000 c7Env c7State (by decide) rfl rfl rfl
  exact ⟨h1, h2, h3, h4⟩

/-! ## Claim C10 -/

/-- C10: the focus accumulator `totalFocusTime` is non-decreasing on every
cycle, and it changes exactly at the two segment-close events: the user
leaving mid-segment (`userNear = false` while `isPresent`) and the forced
close when the elapsed segment reaches the (freshly recomputed)
recommendation and the warning state is entered; in both cases it grows by
the elapsed segment `now - focusStartTime`, and on every other cycle —
including all warning, resting and rest-finished cycles — it is unchanged. -/
theorem totalFocusTime_accounting (now : Nat) (e : Env) (s : St) :
    s.totalFocusTime ≤ (loopStep now e s).totalFocusTime ∧
    (loopStep now e s).totalFocusTime = s.totalFocusTime +
      (if s.waitingForUserToLeave = false ∧ s.inRestMode = false ∧ s.isPresent = true ∧
          (userNear e.distance = false ∨
            calculateRecommendedTime e.lux e.noise
              (if validDistance e.distance then e.distance else 999) ≤
              now - s.focusStartTime)
        then now - s.focusStartTime else 0) := by
  have key : (loopStep now e s).totalFocusTime = s.totalFocusTime +
      (if s.waitingForUserToLeave = false ∧ s.inRestMode = false ∧ s.isPresent = true ∧
          (userNear e.distance = false ∨
            calculateRecommendedTime e.lux e.noise
              (if validDistance e.distance then e.distance else 999) ≤
              now - s.focusStartTime)
        then now - s.focusStartTime else 0) := by
    by_cases hw : s.waitingForUserToLeave = true
    · have : loopStep now e s = warnBranch now e (updateRecommendations e s) := by
        simp [loopStep, hw]
      rw [this, warnBranch_totalFocusTime]
      simp [hw]
    · have hw' : s.waitingForUserToLeave = false := by
        cases h : s.waitingForUserToLeave
        · rfl
        · exact absurd h hw
      by_cases hr : s.inRestMode = true
      · have : loopStep now e s = restBranch now e (updateRecommendations e s) := by
          simp [loopStep, hw', hr]
        rw [this, restBranch_totalFocusTime]
        simp [hr]
      · have hr' : s.inRestMode = false := by
          cases h : s.inRestMode
          · rfl
          · exact absurd h hr
        rw [loopStep_eq_focusBranch now e s hw' hr']
        rw [focusBranch_totalFocus now e (updateRecommendations e s) (by simpa using hr')]
        simp [hw', hr']
  refine ⟨?_, key⟩
  rw [key]
  exact Nat.le_add_right _ _

/-! ## Claim C1 -/

/-- Resting machine whose stored rest target (latched 15 minutes at entry)
has just elapsed. -/
def c1State : St :=
  { recommendedFocusTime := 2700000, dynamicRestTime := 900000,
    focusStartTime := 0, totalFocusTime := 2700000, restStartTime := 0,
    absenceStartTime := 0, isPresent := false, inRestMode := true,
    restFinished := false, waitingForUserToLeave := false,
    lastR := 40, lastG := 0, lastB := 0, envLightOn := false,
    lastLcdUpdate := 0, lcdPage := 0 }

/-- Snapshot taken mid-rest: dim (lux 50) and loud (noise 700), user away —
the live recomputation now recommends 25 minutes of rest. -/
def c1Env : Env := { distance := 999, noise := 700, lux := 50 }

/-- Counterexample to C1 as stated: the rest segment entered with a
15-minute target has fully elapsed (900000 ms ≥ the value captured at
segment entry) and the user is away, yet the cycle does NOT finish the rest,
because the exit check uses the recommendation recomputed this cycle from
the new snapshot (25 minutes), not the value latched at phase entry. -/
theorem target_not_latched_counterexample :
    c1State.inRestMode = true ∧ c1State.waitingForUserToLeave = false ∧
    userNear c1Env.distance = false ∧
    c1State.dynamicRestTime ≤ 900000 - c1State.restStartTime ∧
    (loopStep 900000 c1Env c1State).inRestMode = true ∧
    (loopStep 900000 c1Env c1State).restFinished = false := by
  decide

/-- C1 (amended): there is no phase-entry latch — both targets are
overwritten at the top of every cycle from the current snapshot, so the
in-progress exit checks always compare against the live per-cycle
recomputation: after any cycle the stored targets equal the freshly
computed ones, and while focusing the warning fires on a cycle exactly when
the elapsed segment reaches the recommendation recomputed from that very
cycle's snapshot. -/
theorem targets_recomputed_every_cycle (now : Nat) (e : Env) (s : St) :
    (loopStep now e s).recommendedFocusTime =
      calculateRecommendedTime e.lux e.noise
        (if validDistance e.distance then e.distance else 999) ∧
    (loopStep now e s).dynamicRestTime = calculateRestTime e.lux e.noise ∧
    (s.waitingForUserToLeave = false → s.inRestMode = false →
      s.isPresent = true → userNear e.distance = true →
      ((loopStep now e s).waitingForUserToLeave = true ↔
        calculateRecommendedTime e.lux e.noise
          (if validDistance e.distance then e.distance else 999) ≤
          now - s.focusStartTime)) := by
  have hsplit : ∀ u : St, u = updateRecommendations e s →
      (loopStep now e s).recommendedFocusTime =
        calculateRecommendedTime e.lux e.noise
          (if validDistance e.distance then e.distance else 999) ∧
      (loopStep now e s).dynamicRestTime = calculateRestTime e.lux e.noise := by
    intro u hu
    by_cases hw : s.waitingForUserToLeave = true
    · have hstep : loopStep now e s = warnBranch now e (updateRecommendations e s) := by
        simp [loopStep, hw]
      rw [hstep, warnBranch_recommendedFocusTime, warnBranch_dynamicRestTime]
      simp
    · have hw' : s.waitingForUserToLeave = false := by
        cases h : s.waitingForUserToLeave
        · rfl
        · exact absurd h hw
      by_cases hr : s.inRestMode = true
      · have hstep : loopStep now e s = restBranch now e (updateRecommendations e s) := by
          simp [loopStep, hw', hr]
        rw [hstep, restBranch_recommendedFocusTime, restBranch_dynamicRestTime]
        simp
      · have hr' : s.inRestMode = false := by
          cases h : s.inRestMode
          · rfl
          · exact absurd h hr
        rw [loopStep_eq_focusBranch now e s hw' hr',
          focusBranch_recommendedFocusTime, focusBranch_dynamicRestTime]
        simp
  obtain ⟨h1, h2⟩ := hsplit (updateRecommendations e s) rfl
  refine ⟨h1, h2, fun hw hr hp hn => ?_⟩
  rw [loopStep_eq_focusBranch now e s hw hr]
  have h := focusBranch_warn_iff now e (updateRecommendations e s)
    (by simpa using hw) (by simpa using hr) (by simpa using hp) hn
  simpa using h

/-- Focusing machine used to witness the amended C1. -/
def c1wState : St :=
  { recommendedFocusTime := 2700000, dynamicRestTime := 900000,
    focusStartTime := 0, totalFocusTime := 0, restStartTime := 0,
    absenceStartTime := 0, isPresent := true, inRestMode := false,
    restFinished := false, waitingForUserToLeave := false,
    lastR := 0, lastG := 40, lastB := 0, envLightOn := false,
    lastLcdUpdate := 0, lcdPage := 0 }

/-- Witness snapshot: bright, quiet, user at 50 cm — live recommendation is
60 minutes. -/
def c1wEnv : Env := { distance := 50, noise := 100, lux := 500 }

/-- Witness for the amended C1: at 3600000 ms of continuous focus with the
live 60-minute recommendation, the warning fires on that very cycle. -/
theorem targets_recomputed_every_cycle_witness :
    (loopStep 3600000 c1wEnv c1wState).waitingForUserToLeave = true := by
  exact ((targets_recomputed_every_cycle 3600000 c1wEnv c1wState).2.2
    rfl rfl rfl (by decide)).mpr (by decide)

/-! ## Claim C8 -/

/-- Warning-state machine whose environment light is still on from the
focus cycles before the warning fired. -/
def c8State : St :=
  { recommendedFocusTime := 2700000, dynamicRestTime := 900000,
    focusStartTime := 0, totalFocusTime := 2700000, restStartTime := 0,
    absenceStartTime := 0, isPresent := false, inRestMode := false,
    restFinished := false, waitingForUserToLeave := true,
    lastR := 40, lastG := 0, lastB := 0, envLightOn := true,
    lastLcdUpdate := 0, lcdPage := 0 }

/-- Bright snapshot (lux 500, not tooDark) with the user away. -/
def c8Env : Env := { distance := 999, noise := 700, lux := 500 }

/-- Counterexample to C8 as stated: a cycle spent in the warning state is
outside the Resting phase, the room is bright (`tooDark` false), yet the
environment light ends the cycle still on — the warning branch performs no
environment-light write at all, so "on iff tooDark" fails there. -/
theorem env_light_counterexample :
    c8State.inRestMode = false ∧
    (loopStep 100 c8Env c8State).inRestMode = false ∧
    ¬(c8Env.lux < MIN_LUX) ∧
    (loopStep 100 c8Env c8State).envLightOn = true := by
  refine ⟨rfl, by decide, by norm_num [c8Env, MIN_LUX], by decide⟩

/-- C8 (amended): during Resting the environment light is forced off; on a
warning-state cycle no environment-light write happens (the previous state
is held, whatever the lux); on every other cycle the light is set on iff
tooDark — except the warning-entry cycle itself, which returns before the
light write and so also holds the previous state. -/
theorem env_light_phase_behaviour (now : Nat) (e : Env) (s : St) :
    (s.waitingForUserToLeave = false → s.inRestMode = true →
      (loopStep now e s).envLightOn = false) ∧
    (s.waitingForUserToLeave = true →
      (loopStep now e s).envLightOn = s.envLightOn) ∧
    (s.waitingForUserToLeave = false → s.inRestMode = false →
      (loopStep now e s).envLightOn =
        if userNear e.distance = true ∧ s.isPresent = true ∧
            calculateRecommendedTime e.lux e.noise
              (if validDistance e.distance then e.distance else 999) ≤
              now - s.focusStartTime
          then s.envLightOn else decide (e.lux < MIN_LUX)) := by
  refine ⟨fun hw hr => ?_, fun hw => ?_, fun hw hr => ?_⟩
  · have hstep : loopStep now e s = restBranch now e (updateRecommendations e s) := by
      simp [loopStep, hw, hr]
    rw [hstep, restBranch_envLightOn]
  · have hstep : loopStep now e s = warnBranch now e (updateRecommendations e s) := by
      simp [loopStep, hw]
    rw [hstep, warnBranch_envLightOn]
    simp
  · rw [loopStep_eq_focusBranch now e s hw hr]
    have hpos : 0 < (updateRecommendations e s).recommendedFocusTime := by
      have := (calculateRecommendedTime_bounds e.lux e.noise
        (if validDistance e.distance then e.distance else 999)).1
      simp only [updateRec_recommendedFocusTime]
      omega
    have h := focusBranch_envLight now e (updateRecommendations e s)
      (by simpa using hr) hpos
    simpa using h

/-- Witness for the amended C8: a resting cycle forces the light off even
in a dark room (lux 10), and a plain focus-mode cycle in the same dark room
turns it on. -/
theorem env_light_phase_behaviour_witness :
    (loopStep 1000 { distance := 999, noise := 100, lux := 10 } c3State).envLightOn = false ∧
    (loopStep 1000 { distance := 999, noise := 100, lux := 10 } c7State).envLightOn = true := by
  constructor
  · exact (env_light_phase_behaviour 1000 _ c3State).1 rfl rfl
  · rw [(env_light_phase_behaviour 1000 _ c7State).2.2 rfl rfl]
    decide

/-! ## Claim C9 -/

/-- Machine mid-focus (previous cycle wrote green) about to observe an
invalid, noisy snapshot. -/
def c9State : St :=
  { recommendedFocusTime := 2700000, dynamicRestTime := 900000,
    focusStartTime := 0, totalFocusTime := 0, restStartTime := 0,
    absenceStartTime := 0, isPresent := true, inRestMode := false,
    restFinished := false, waitingForUserToLeave := false,
    lastR := 0, lastG := 40, lastB := 0, envLightOn := false,
    lastLcdUpdate := 0, lcdPage := 0 }

/-- Invalid (timeout sentinel 0) and noisy (noise 400 > MAX_NOISE)
snapshot. -/
def c9Env : Env := { distance := 0, noise := 400, lux := 500 }

/-- Counterexample to C9 as stated: a machine that was focusing observes an
invalid distance with noise above MAX_NOISE, and the claimed (40,40,0)
write does not happen — the colour cache keeps the previous green, because
the presence update clears `isPresent` before the indicator decision, so
the invalid-distance indicator branch is not reached. -/
theorem invalid_distance_branch_counterexample :
    c9State.isPresent = true ∧ validDistance c9Env.distance = false ∧
    MAX_NOISE < c9Env.noise ∧
    (loopStep 1000 c9Env c9State).lastR = 0 ∧
    (loopStep 1000 c9Env c9State).lastG = 40 ∧
    (loopStep 1000 c9Env c9State).lastB = 0 := by
  decide

/-- C9 (amended): the invalid-distance arm of the focusing indicator logic
is dead code — on any cycle outside the warning, resting and rest-finished
states whose distance reading is invalid, `isPresent` is false by the time
the indicator decision runs, so no indicator write occurs at all and the
previous colour is held (neither the noisy (40,40,0) nor the neutral
(0,0,0) write happens). -/
theorem invalid_distance_branch_dead (now : Nat) (e : Env) (s : St)
    (hw : s.waitingForUserToLeave = false) (hr : s.inRestMode = false)
    (hf : s.restFinished = false) (hv : validDistance e.distance = false) :
    (loopStep now e s).isPresent = false ∧
    (loopStep now e s).lastR = s.lastR ∧
    (loopStep now e s).lastG = s.lastG ∧
    (loopStep now e s).lastB = s.lastB := by
  have hn : userNear e.distance = false := by simp [userNear, hv]
  rw [loopStep_eq_focusBranch now e s hw hr]
  obtain ⟨h1, h2, h3, h4⟩ :=
    focusBranch_far now e (updateRecommendations e s) hn (by simpa using hf)
  exact ⟨h1, by simpa using h2, by simpa using h3, by simpa using h4⟩

/-- Witness for the amended C9, at the same invalid noisy snapshot as the
counterexample. -/
theorem invalid_distance_branch_dead_witness :
    (loopStep 1000 c9Env c9State).isPresent = false ∧
    (loopStep 1000 c9Env c9State).lastR = 0 := by
  obtain ⟨h1, h2, _, _⟩ :=
    invalid_distance_branch_dead 1000 c9Env c9State rfl rfl rfl (by decide)
  exact ⟨h1, by rw [h2]; rfl⟩

end StudyAssistant
